import Mathlib

/-!
Shallow embedding of the NZEB backend energy/economic model.

Numeric quantities are modelled as exact rationals (`ℚ`); the Python
source performs the same field arithmetic on floats.  Each definition
below is translated from a function of `src/models.py` or from the
request handler `nzeb_model` in `src/app.py`, keeping the source's
names and computation order.
-/

/-- Translation of `calculate_total_energy_generated` (models.py): total
energy generated from all renewable sources. -/
def calculate_total_energy_generated (e_pv e_wt e_bg : ℚ) : ℚ :=
  e_pv + e_wt + e_bg

/-- Translation of `calculate_energy_balance` (models.py): excess or
curtailed energy `e_generated + e_grid - e_load`. -/
def calculate_energy_balance (e_generated e_grid e_load : ℚ) : ℚ :=
  e_generated + e_grid - e_load

/-- Translation of `calculate_pv_energy` (models.py). -/
def calculate_pv_energy (area efficiency irradiance : ℚ) : ℚ :=
  area * efficiency * irradiance

/-- Translation of `calculate_wind_power` (models.py): piecewise power
curve.  The Python chain of `if`/`elif` branches is kept in order. -/
def calculate_wind_power (rho area cp v v_cut_in v_rated v_cut_out p_rated : ℚ) : ℚ :=
  if v < v_cut_in ∨ v > v_cut_out then 0
  else if v_cut_in ≤ v ∧ v ≤ v_rated then (1/2 * rho * area * v ^ 3 * cp) / 1000
  else if v_rated < v ∧ v ≤ v_cut_out then p_rated
  else 0

/-- Translation of `calculate_wind_energy` (models.py). -/
def calculate_wind_energy
    (rho area cp v v_cut_in v_rated v_cut_out p_rated delta_t : ℚ) : ℚ :=
  calculate_wind_power rho area cp v v_cut_in v_rated v_cut_out p_rated * delta_t

/-- Translation of `calculate_biogas_energy` (models.py). -/
def calculate_biogas_energy (y_ch4 m_feedstock eta_bg hhv_ch4 : ℚ) : ℚ :=
  eta_bg * (y_ch4 * m_feedstock) * hhv_ch4 / 24

/-- The `Battery` class of models.py: capacity (kWh), state of charge
(fraction), charging and discharging efficiencies. -/
structure Battery where
  capacity : ℚ
  soc : ℚ
  eta_c : ℚ
  eta_d : ℚ
deriving DecidableEq, Repr

/-- Translation of `Battery.charge` (models.py).  Python mutates
`self.soc` and returns the energy consumed; here the updated battery is
returned together with that value. -/
def Battery.charge (b : Battery) (energy_kwh : ℚ) : Battery × ℚ :=
  let space_available := (1 - b.soc) * b.capacity
  let energy_to_store := energy_kwh * b.eta_c
  let actual_charge := min space_available energy_to_store
  ({ b with soc := b.soc + actual_charge / b.capacity }, actual_charge / b.eta_c)

/-- Translation of `Battery.discharge` (models.py). -/
def Battery.discharge (b : Battery) (energy_kwh : ℚ) : Battery × ℚ :=
  let energy_available := b.soc * b.capacity * b.eta_d
  let actual_discharge := min energy_available energy_kwh
  ({ b with soc := b.soc - (actual_discharge / b.eta_d) / b.capacity }, actual_discharge)

/-- Translation of `calculate_lcc` (models.py): the Python `for y in
range(1, n + 1)` accumulation is a left fold over `[1, …, n]`. -/
def calculate_lcc (c_init c_om c_rep s r : ℚ) (n : ℕ) : ℚ :=
  (List.range' 1 n).foldl
    (fun total_costs y =>
      total_costs + (if y = n then c_om + (c_rep - s) else c_om) / (1 + r) ^ y)
    c_init

/-- Result type of `calculate_lcoe`: the Python function returns either
`float("inf")` or a finite quotient. -/
inductive LcoeResult where
  | posInf : LcoeResult
  | value : ℚ → LcoeResult
deriving DecidableEq, Repr

/-- Translation of `calculate_lcoe` (models.py). -/
def calculate_lcoe (lcc e_total_per_year r : ℚ) (n : ℕ) : LcoeResult :=
  let total_discounted_energy :=
    (List.range' 1 n).foldl (fun acc y => acc + e_total_per_year / (1 + r) ^ y) 0
  if total_discounted_energy = 0 then .posInf
  else .value (lcc / total_discounted_energy)

/-- Translation of `calculate_co2_reduction` (models.py). -/
def calculate_co2_reduction (e_offset ef : ℚ) : ℚ :=
  e_offset * ef

/-!
Embedding of the request handler `nzeb_model` (src/app.py).  The JSON
input groups are structures; the optional `"scenario"` tag is an
`Option String` (`data.get("scenario")`).  The HTTP/JSON transport is
out of scope; `nzeb_model` here maps a well-formed request to the
response record built at app.py lines 176-198.
-/

/-- The `solar_inputs` group of the request. -/
structure SolarInputs where
  area_pv : ℚ
  efficiency_pv : ℚ
  irradiance : ℚ
deriving DecidableEq, Repr

/-- The `wind_inputs` group of the request. -/
structure WindInputs where
  air_density : ℚ
  swept_area : ℚ
  power_coefficient : ℚ
  wind_speed : ℚ
  v_cut_in : ℚ
  v_rated : ℚ
  v_cut_out : ℚ
  p_rated : ℚ
  delta_t : ℚ
deriving DecidableEq, Repr

/-- The `biogas_inputs` group of the request. -/
structure BiogasInputs where
  methane_yield : ℚ
  mass_feedstock : ℚ
  efficiency_bg : ℚ
  hhv_ch4 : ℚ
deriving DecidableEq, Repr

/-- The `battery_inputs` group of the request; `initial_soc` is
optional in the JSON (`battery_inputs.get("initial_soc", 0.5)`). -/
structure BatteryInputs where
  capacity : ℚ
  initial_soc : Option ℚ
  eta_c : ℚ
  eta_d : ℚ
deriving DecidableEq, Repr

/-- The `lcca_inputs` group of the request. -/
structure LccaInputs where
  c_init : ℚ
  c_om : ℚ
  c_rep : ℚ
  s : ℚ
  r : ℚ
  n : ℕ
deriving DecidableEq, Repr

/-- The `co2_inputs` group of the request. -/
structure Co2Inputs where
  emission_factor : ℚ
deriving DecidableEq, Repr

/-- A validated request body for `POST /api/nzeb_model`. -/
structure NzebRequest where
  solar_inputs : SolarInputs
  wind_inputs : WindInputs
  biogas_inputs : BiogasInputs
  load_demand : ℚ
  grid_energy : ℚ
  battery_inputs : BatteryInputs
  lcca_inputs : LccaInputs
  co2_inputs : Co2Inputs
  scenario : Option String
deriving DecidableEq, Repr

/-- `e_pv` as computed at app.py lines 55-59. -/
def req_e_pv (req : NzebRequest) : ℚ :=
  calculate_pv_energy req.solar_inputs.area_pv req.solar_inputs.efficiency_pv
    req.solar_inputs.irradiance

/-- `e_wt` as computed at app.py lines 61-71. -/
def req_e_wt (req : NzebRequest) : ℚ :=
  calculate_wind_energy req.wind_inputs.air_density req.wind_inputs.swept_area
    req.wind_inputs.power_coefficient req.wind_inputs.wind_speed
    req.wind_inputs.v_cut_in req.wind_inputs.v_rated req.wind_inputs.v_cut_out
    req.wind_inputs.p_rated req.wind_inputs.delta_t

/-- `e_bg` as computed at app.py lines 73-78. -/
def req_e_bg (req : NzebRequest) : ℚ :=
  calculate_biogas_energy req.biogas_inputs.methane_yield
    req.biogas_inputs.mass_feedstock req.biogas_inputs.efficiency_bg
    req.biogas_inputs.hhv_ch4

/-- `total_energy_generated` as computed at app.py line 80. -/
def req_total_generated (req : NzebRequest) : ℚ :=
  calculate_total_energy_generated (req_e_pv req) (req_e_wt req) (req_e_bg req)

/-- Record of which battery operation the handler performed. -/
inductive BatteryOp where
  | charged : ℚ → BatteryOp
  | discharged : ℚ → BatteryOp
  | noOp : BatteryOp
deriving DecidableEq, Repr

/-- Outcome of the battery simulation block (app.py lines 90-102):
the final battery, the one operation performed with its argument, and
the adjusted `energy_from_generation` value. -/
structure BatterySimResult where
  battery : Battery
  op : BatteryOp
  energy_from_generation : ℚ
deriving DecidableEq, Repr

/-- Translation of the battery simulation block at app.py lines 90-102. -/
def simulate_battery (battery : Battery) (total_energy_generated load_demand : ℚ) :
    BatterySimResult :=
  let energy_from_generation := total_energy_generated
  let energy_needed := load_demand
  if energy_from_generation > energy_needed then
    let excess := energy_from_generation - energy_needed
    let charged := battery.charge excess
    { battery := charged.1, op := .charged excess,
      energy_from_generation := energy_from_generation - charged.2 }
  else if energy_from_generation < energy_needed then
    let deficit := energy_needed - energy_from_generation
    let discharged := battery.discharge deficit
    { battery := discharged.1, op := .discharged deficit,
      energy_from_generation := energy_from_generation + discharged.2 }
  else
    { battery := battery, op := .noOp,
      energy_from_generation := energy_from_generation }

/-- One entry of the `scenario_results` dict (app.py lines 146-150);
the constant `"message"` string is omitted. -/
structure GridOutageResult where
  excess_energy_during_outage_kWh : ℚ
  system_uptime_percentage : ℚ
deriving DecidableEq, Repr

/-- Translation of the scenario-modeling block at app.py lines 137-150:
the Python dict `scenario_results` as an association list, filled only
when `data.get("scenario") == "grid_outage"`. -/
def scenario_results_of (req : NzebRequest) : List (String × GridOutageResult) :=
  if req.scenario = some "grid_outage" then
    let e_excess_outage :=
      calculate_energy_balance (req_total_generated req) 0 req.load_demand
    let uptime :=
      if req.load_demand > 0
      then req_total_generated req / req.load_demand * 100
      else 100
    [("grid_outage",
      { excess_energy_during_outage_kWh := e_excess_outage,
        system_uptime_percentage := min uptime 100 })]
  else []

/-- The response record built at app.py lines 176-198, flattened to one
structure (section nesting carries no logic).  The `regression_analysis`
block — a fixed least-squares fit over six constant irradiance samples —
carries no model state and is not embedded. -/
structure NzebResponse where
  solar_pv_kWh : ℚ
  wind_turbine_kWh : ℚ
  biogas_kWh : ℚ
  total_generated_kWh : ℚ
  load_demand_kWh : ℚ
  grid_energy_kWh : ℚ
  excess_or_curtailed_energy_kWh : ℚ
  state_of_charge_percent : ℚ
  life_cycle_cost_LCC : ℚ
  levelized_cost_of_energy_LCOE : LcoeResult
  co2_emission_reduction_kg : ℚ
  scenario_modeling_results : List (String × GridOutageResult)
deriving DecidableEq, Repr

/-- The top-level keys of the response dict literal at app.py lines
176-198.  The literal lists all seven keys unconditionally, for every
request. -/
def nzeb_response_keys (_req : NzebRequest) : List String :=
  ["energy_generation", "energy_balance", "battery_status",
   "financial_analysis", "environmental_impact",
   "scenario_modeling_results", "regression_analysis"]

/-- Translation of the body of the handler `nzeb_model` (app.py lines
54-198) on a validated request. -/
def nzeb_model (req : NzebRequest) : NzebResponse :=
  let e_pv := req_e_pv req
  let e_wt := req_e_wt req
  let e_bg := req_e_bg req
  let total_energy_generated := req_total_generated req
  let battery : Battery :=
    { capacity := req.battery_inputs.capacity,
      soc := req.battery_inputs.initial_soc.getD (1/2),
      eta_c := req.battery_inputs.eta_c,
      eta_d := req.battery_inputs.eta_d }
  let sim := simulate_battery battery total_energy_generated req.load_demand
  let e_excess :=
    calculate_energy_balance total_energy_generated req.grid_energy req.load_demand
  let total_energy_per_year := total_energy_generated * 24 * 365
  let lcc := calculate_lcc req.lcca_inputs.c_init req.lcca_inputs.c_om
    req.lcca_inputs.c_rep req.lcca_inputs.s req.lcca_inputs.r req.lcca_inputs.n
  let lcoe := calculate_lcoe lcc total_energy_per_year req.lcca_inputs.r
    req.lcca_inputs.n
  let delta_co2 :=
    calculate_co2_reduction total_energy_generated req.co2_inputs.emission_factor
  { solar_pv_kWh := e_pv,
    wind_turbine_kWh := e_wt,
    biogas_kWh := e_bg,
    total_generated_kWh := total_energy_generated,
    load_demand_kWh := req.load_demand,
    grid_energy_kWh := req.grid_energy,
    excess_or_curtailed_energy_kWh := e_excess,
    state_of_charge_percent := sim.battery.soc * 100,
    life_cycle_cost_LCC := lcc,
    levelized_cost_of_energy_LCOE := lcoe,
    co2_emission_reduction_kg := delta_co2,
    scenario_modeling_results := scenario_results_of req }

/-- The discounted-energy denominator of the LCOE formula, as the spec
states it: `Σ_{y=1..n} e_total_per_year / (1+r)^y`. -/
def discounted_energy_sum (e_total_per_year r : ℚ) (n : ℕ) : ℚ :=
  ∑ y in Finset.Icc 1 n, e_total_per_year / (1 + r) ^ y

/-- A concrete well-formed request carrying no scenario tag. -/
def request_no_scenario : NzebRequest :=
  { solar_inputs := { area_pv := 10, efficiency_pv := 1/5, irradiance := 4/5 },
    wind_inputs := { air_density := 5/4, swept_area := 20, power_coefficient := 2/5,
                     wind_speed := 8, v_cut_in := 3, v_rated := 12, v_cut_out := 25,
                     p_rated := 5, delta_t := 1 },
    biogas_inputs := { methane_yield := 1/4, mass_feedstock := 48,
                       efficiency_bg := 1/2, hhv_ch4 := 10 },
    load_demand := 6,
    grid_energy := 2,
    battery_inputs := { capacity := 10, initial_soc := some (1/2),
                        eta_c := 9/10, eta_d := 9/10 },
    lcca_inputs := { c_init := 1000, c_om := 10, c_rep := 100, s := 20,
                     r := 5/100, n := 1 },
    co2_inputs := { emission_factor := 1/2 },
    scenario := Option.none }

/-- A concrete well-formed request with the `"grid_outage"` scenario tag. -/
def request_grid_outage : NzebRequest :=
  { solar_inputs := { area_pv := 10, efficiency_pv := 1/5, irradiance := 4/5 },
    wind_inputs := { air_density := 5/4, swept_area := 20, power_coefficient := 2/5,
                     wind_speed := 8, v_cut_in := 3, v_rated := 12, v_cut_out := 25,
                     p_rated := 5, delta_t := 1 },
    biogas_inputs := { methane_yield := 1/4, mass_feedstock := 48,
                       efficiency_bg := 1/2, hhv_ch4 := 10 },
    load_demand := 6,
    grid_energy := 2,
    battery_inputs := { capacity := 10, initial_soc := some (1/2),
                        eta_c := 9/10, eta_d := 9/10 },
    lcca_inputs := { c_init := 1000, c_om := 10, c_rep := 100, s := 20,
                     r := 5/100, n := 1 },
    co2_inputs := { emission_factor := 1/2 },
    scenario := some "grid_outage" }

/-!  Theorems  -/

lemma charge_soc_eq (b : Battery) (e : ℚ) :
    (b.charge e).1.soc
      = b.soc + min ((1 - b.soc) * b.capacity) (e * b.eta_c) / b.capacity := rfl

lemma charge_ret_eq (b : Battery) (e : ℚ) :
    (b.charge e).2 = min ((1 - b.soc) * b.capacity) (e * b.eta_c) / b.eta_c := rfl

lemma discharge_soc_eq (b : Battery) (e : ℚ) :
    (b.discharge e).1.soc
      = b.soc - (min (b.soc * b.capacity * b.eta_d) e / b.eta_d) / b.capacity := rfl

lemma discharge_ret_eq (b : Battery) (e : ℚ) :
    (b.discharge e).2 = min (b.soc * b.capacity * b.eta_d) e := rfl

/-- Claim C1: for a battery with positive capacity and charge
efficiency in (0,1], `charge e` with `e ≥ 0` stores exactly
`min ((1 - soc) * capacity) (e * eta_c)`, adds `stored / capacity` to
the state of charge, and returns `stored / eta_c`; when the headroom is
the binding constraint the final state of charge is exactly 1 and the
returned value is `(1 - soc) * capacity / eta_c`. -/
theorem battery_charge_spec (b : Battery) (e : ℚ)
    (hcap : 0 < b.capacity) (hc0 : 0 < b.eta_c) (hc1 : b.eta_c ≤ 1)
    (he : 0 ≤ e) :
    (b.charge e).1.soc
        = b.soc + min ((1 - b.soc) * b.capacity) (e * b.eta_c) / b.capacity
    ∧ (b.charge e).2 = min ((1 - b.soc) * b.capacity) (e * b.eta_c) / b.eta_c
    ∧ ((1 - b.soc) * b.capacity ≤ e * b.eta_c →
        (b.charge e).1.soc = 1
        ∧ (b.charge e).2 = (1 - b.soc) * b.capacity / b.eta_c) := by
  refine ⟨charge_soc_eq b e, charge_ret_eq b e, fun h => ⟨?_, ?_⟩⟩
  · rw [charge_soc_eq, min_eq_left h,
      mul_div_assoc, div_self (ne_of_gt hcap)]
    ring
  · rw [charge_ret_eq, min_eq_left h]

/-- Witness for `battery_charge_spec` at capacity 10, soc 1/2,
efficiencies 9/10, offered energy 100 (headroom binding). -/
theorem battery_charge_spec_witness :
    (0:ℚ) < 10 ∧ (0:ℚ) < 9/10 ∧ (9 : ℚ)/10 ≤ 1 ∧ (0:ℚ) ≤ 100
    ∧ ((Battery.mk 10 (1/2) (9/10) (9/10)).charge 100).1.soc
        = 1/2 + min ((1 - 1/2) * 10) (100 * (9/10)) / 10 :=
  ⟨by norm_num, by norm_num, by norm_num, by norm_num,
    (battery_charge_spec (Battery.mk 10 (1/2) (9/10) (9/10)) 100
      (by norm_num) (by norm_num) (by norm_num) (by norm_num)).1⟩

/-- Claim C2: for a battery with positive capacity and discharge
efficiency in (0,1], `discharge e` with `e ≥ 0` delivers exactly
`min (soc * capacity * eta_d) e`, subtracts `(delivered / eta_d) /
capacity` from the state of charge, and returns the delivered amount;
when the request exceeds the available energy the returned value is
`soc * capacity * eta_d` and the final state of charge is exactly 0. -/
theorem battery_discharge_spec (b : Battery) (e : ℚ)
    (hcap : 0 < b.capacity) (hd0 : 0 < b.eta_d) (hd1 : b.eta_d ≤ 1)
    (he : 0 ≤ e) :
    (b.discharge e).2 = min (b.soc * b.capacity * b.eta_d) e
    ∧ (b.discharge e).1.soc
        = b.soc - (min (b.soc * b.capacity * b.eta_d) e / b.eta_d) / b.capacity
    ∧ (b.soc * b.capacity * b.eta_d < e →
        (b.discharge e).2 = b.soc * b.capacity * b.eta_d
        ∧ (b.discharge e).1.soc = 0) := by
  refine ⟨discharge_ret_eq b e, discharge_soc_eq b e, fun h => ⟨?_, ?_⟩⟩
  · rw [discharge_ret_eq, min_eq_left h.le]
  · rw [discharge_soc_eq, min_eq_left h.le,
      mul_div_assoc, div_self (ne_of_gt hd0), mul_one, mul_div_assoc,
      div_self (ne_of_gt hcap)]
    ring

/-- Witness for `battery_discharge_spec` at capacity 10, soc 1/2,
efficiencies 9/10, requested energy 100 (availability binding). -/
theorem battery_discharge_spec_witness :
    (0:ℚ) < 10 ∧ (0:ℚ) < 9/10 ∧ (9 : ℚ)/10 ≤ 1 ∧ (0:ℚ) ≤ 100
    ∧ ((Battery.mk 10 (1/2) (9/10) (9/10)).discharge 100).2
        = min ((1/2) * 10 * (9/10)) 100 :=
  ⟨by norm_num, by norm_num, by norm_num, by norm_num,
    (battery_discharge_spec (Battery.mk 10 (1/2) (9/10) (9/10)) 100
      (by norm_num) (by norm_num) (by norm_num) (by norm_num)).1⟩

lemma charge_soc_bounds (b : Battery) (x : ℚ)
    (hcap : 0 < b.capacity) (hc0 : 0 < b.eta_c)
    (hs0 : 0 ≤ b.soc) (hs1 : b.soc ≤ 1) (hx : 0 ≤ x) :
    0 ≤ (b.charge x).1.soc ∧ (b.charge x).1.soc ≤ 1 := by
  rw [charge_soc_eq]
  have hm0 : 0 ≤ min ((1 - b.soc) * b.capacity) (x * b.eta_c) :=
    le_min (mul_nonneg (by linarith) hcap.le) (mul_nonneg hx hc0.le)
  have hmle : min ((1 - b.soc) * b.capacity) (x * b.eta_c) ≤ (1 - b.soc) * b.capacity :=
    min_le_left _ _
  constructor
  · have : 0 ≤ min ((1 - b.soc) * b.capacity) (x * b.eta_c) / b.capacity :=
      div_nonneg hm0 hcap.le
    linarith
  · have : min ((1 - b.soc) * b.capacity) (x * b.eta_c) / b.capacity ≤ 1 - b.soc := by
      rw [div_le_iff hcap]
      exact hmle
    linarith

lemma discharge_soc_bounds (b : Battery) (y : ℚ)
    (hcap : 0 < b.capacity) (hd0 : 0 < b.eta_d)
    (hs0 : 0 ≤ b.soc) (hs1 : b.soc ≤ 1) (hy : 0 ≤ y) :
    0 ≤ (b.discharge y).1.soc ∧ (b.discharge y).1.soc ≤ 1 := by
  rw [discharge_soc_eq]
  have hm0 : 0 ≤ min (b.soc * b.capacity * b.eta_d) y :=
    le_min (mul_nonneg (mul_nonneg hs0 hcap.le) hd0.le) hy
  have hmle : min (b.soc * b.capacity * b.eta_d) y ≤ b.soc * b.capacity * b.eta_d :=
    min_le_left _ _
  constructor
  · have h1 : min (b.soc * b.capacity * b.eta_d) y / b.eta_d ≤ b.soc * b.capacity := by
      rw [div_le_iff hd0]
      exact hmle
    have h2 : min (b.soc * b.capacity * b.eta_d) y / b.eta_d / b.capacity ≤ b.soc := by
      rw [div_le_iff hcap]
      linarith
    linarith
  · have : 0 ≤ min (b.soc * b.capacity * b.eta_d) y / b.eta_d / b.capacity :=
      div_nonneg (div_nonneg hm0 hd0.le) hcap.le
    linarith

lemma charge_capacity_eq (b : Battery) (x : ℚ) : (b.charge x).1.capacity = b.capacity := rfl

lemma charge_eta_d_eq (b : Battery) (x : ℚ) : (b.charge x).1.eta_d = b.eta_d := rfl

lemma discharge_capacity_eq (b : Battery) (y : ℚ) :
    (b.discharge y).1.capacity = b.capacity := rfl

lemma discharge_eta_c_eq (b : Battery) (y : ℚ) : (b.discharge y).1.eta_c = b.eta_c := rfl

/-- Claim C3: with positive capacity, efficiencies in (0,1], an initial
state of charge in [0,1] and non-negative amounts `x`, `y`, the state
of charge stays in [0,1] after `charge x` then `discharge y`, and after
`discharge y` then `charge x`. -/
theorem battery_soc_invariant (b : Battery) (x y : ℚ)
    (hcap : 0 < b.capacity)
    (hc0 : 0 < b.eta_c) (hc1 : b.eta_c ≤ 1)
    (hd0 : 0 < b.eta_d) (hd1 : b.eta_d ≤ 1)
    (hs0 : 0 ≤ b.soc) (hs1 : b.soc ≤ 1)
    (hx : 0 ≤ x) (hy : 0 ≤ y) :
    (0 ≤ ((b.charge x).1.discharge y).1.soc
      ∧ ((b.charge x).1.discharge y).1.soc ≤ 1)
    ∧ (0 ≤ ((b.discharge y).1.charge x).1.soc
      ∧ ((b.discharge y).1.charge x).1.soc ≤ 1) := by
  have hch := charge_soc_bounds b x hcap hc0 hs0 hs1 hx
  have hdis := discharge_soc_bounds b y hcap hd0 hs0 hs1 hy
  constructor
  · exact discharge_soc_bounds (b.charge x).1 y
      (by rw [charge_capacity_eq]; exact hcap)
      (by rw [charge_eta_d_eq]; exact hd0) hch.1 hch.2 hy
  · exact charge_soc_bounds (b.discharge y).1 x
      (by rw [discharge_capacity_eq]; exact hcap)
      (by rw [discharge_eta_c_eq]; exact hc0) hdis.1 hdis.2 hx

/-- Witness for `battery_soc_invariant` at capacity 10, soc 1/2,
efficiencies 9/10, charge 3 then discharge 4 and vice versa. -/
theorem battery_soc_invariant_witness :
    (0:ℚ) < 10 ∧ (0:ℚ) < 9/10 ∧ (9 : ℚ)/10 ≤ 1
    ∧ (0:ℚ) ≤ 1/2 ∧ (1 : ℚ)/2 ≤ 1 ∧ (0:ℚ) ≤ 3 ∧ (0:ℚ) ≤ 4
    ∧ 0 ≤ (((Battery.mk 10 (1/2) (9/10) (9/10)).charge 3).1.discharge 4).1.soc :=
  ⟨by norm_num, by norm_num, by norm_num, by norm_num, by norm_num,
    by norm_num, by norm_num,
    (battery_soc_invariant (Battery.mk 10 (1/2) (9/10) (9/10)) 3 4
      (by norm_num) (by norm_num) (by norm_num) (by norm_num) (by norm_num)
      (by norm_num) (by norm_num) (by norm_num) (by norm_num)).1.1⟩

/-- Claim C4: with `v_cut_in ≤ v_rated ≤ v_cut_out`, the wind power is
0 below cut-in and above cut-out, follows the cubic law on
`[v_cut_in, v_rated]` (including `v = v_rated`), and is the flat rated
power on `(v_rated, v_cut_out]`. -/
theorem wind_power_piecewise (rho area cp v v_cut_in v_rated v_cut_out p_rated : ℚ)
    (h1 : v_cut_in ≤ v_rated) (h2 : v_rated ≤ v_cut_out) :
    ((v < v_cut_in ∨ v > v_cut_out) →
      calculate_wind_power rho area cp v v_cut_in v_rated v_cut_out p_rated = 0)
    ∧ (v_cut_in ≤ v → v ≤ v_rated →
      calculate_wind_power rho area cp v v_cut_in v_rated v_cut_out p_rated
        = (1/2 * rho * area * v ^ 3 * cp) / 1000)
    ∧ (v_rated < v → v ≤ v_cut_out →
      calculate_wind_power rho area cp v v_cut_in v_rated v_cut_out p_rated
        = p_rated) := by
  unfold calculate_wind_power
  refine ⟨fun h => ?_, fun ha hb => ?_, fun ha hb => ?_⟩
  · rw [if_pos h]
  · rw [if_neg ?_, if_pos ⟨ha, hb⟩]
    push_neg
    exact ⟨ha, hb.trans h2⟩
  · rw [if_neg ?_, if_neg ?_, if_pos ⟨ha, hb⟩]
    · rintro ⟨-, hc⟩
      exact absurd ha (not_lt.mpr hc)
    · push_neg
      exact ⟨h1.trans ha.le, hb⟩

/-- Witness for `wind_power_piecewise` with thresholds 3 ≤ 10 ≤ 25: at
`v = 10` (the rated speed) the cubic value, with `p_rated = 7`
different. -/
theorem wind_power_piecewise_witness :
    (3:ℚ) ≤ 10 ∧ (10:ℚ) ≤ 25 ∧ (3:ℚ) ≤ 10 ∧ (10:ℚ) ≤ 10
    ∧ calculate_wind_power 1 1 1 10 3 10 25 7 = (1/2 * 1 * 1 * 10 ^ 3 * 1) / 1000 :=
  ⟨by norm_num, by norm_num, by norm_num, by norm_num,
    (wind_power_piecewise 1 1 1 10 3 10 25 7 (by norm_num) (by norm_num)).2.1
      (by norm_num) (by norm_num)⟩

lemma foldl_add_eq_sum (f : ℕ → ℚ) (init : ℚ) (n : ℕ) :
    (List.range' 1 n).foldl (fun acc y => acc + f y) init
      = init + ∑ y in Finset.Icc 1 n, f y := by
  induction n with
  | zero => simp
  | succ k ih =>
    rw [List.range'_concat, List.foldl_append, ih,
      Finset.sum_Icc_succ_top (by omega : 1 ≤ k + 1)]
    simp only [List.foldl_cons, List.foldl_nil]
    have h1k : 1 + 1 * k = k + 1 := by omega
    rw [h1k]
    ring

/-- Claim C5: for `r ≠ -1` and `n ≥ 1`, `calculate_lcc` equals
`c_init + Σ_{y=1..n} annualCost(y) / (1+r)^y` with `annualCost(y) =
c_om` for `y < n` and `c_om + c_rep - s` at `y = n`; concretely,
`calculate_lcc 1000 10 100 20 0.05 1 = 1000 + (10+100-20)/1.05`. -/
theorem lcc_spec (c_init c_om c_rep s r : ℚ) (n : ℕ)
    (hr : r ≠ -1) (hn : 1 ≤ n) :
    calculate_lcc c_init c_om c_rep s r n
      = c_init + ∑ y in Finset.Icc 1 n,
          (if y < n then c_om else c_om + c_rep - s) / (1 + r) ^ y
    ∧ calculate_lcc 1000 10 100 20 (5/100) 1 = 1000 + (10 + 100 - 20) / 1.05 := by
  constructor
  · unfold calculate_lcc
    rw [foldl_add_eq_sum (fun y => (if y = n then c_om + (c_rep - s) else c_om) / (1 + r) ^ y)]
    congr 1
    refine Finset.sum_congr rfl fun y hy => ?_
    have hyn : y ≤ n := (Finset.mem_Icc.mp hy).2
    by_cases h : y = n
    · subst h
      rw [if_pos rfl, if_neg (lt_irrefl y)]
      ring_nf
    · rw [if_pos (lt_of_le_of_ne hyn h), if_neg h]
  · norm_num [calculate_lcc, List.range']

/-- Witness for `lcc_spec` at `r = 5/100`, `n = 1`. -/
theorem lcc_spec_witness :
    ((5:ℚ)/100 ≠ -1) ∧ 1 ≤ 1
    ∧ calculate_lcc 1000 10 100 20 (5/100) 1 = 1000 + (10 + 100 - 20) / 1.05 :=
  ⟨by norm_num, le_refl 1,
    (lcc_spec 1000 10 100 20 (5/100) 1 (by norm_num) (le_refl 1)).2⟩

/-- Claim C6: for `r ≠ -1` and `n ≥ 1`, `calculate_lcoe` returns
`lcc / Σ_{y=1..n} e/(1+r)^y` when that sum is nonzero, and positive
infinity when the sum is 0 — in particular whenever `e = 0`. -/
theorem lcoe_spec (lcc e_total_per_year r : ℚ) (n : ℕ)
    (hr : r ≠ -1) (hn : 1 ≤ n) :
    (discounted_energy_sum e_total_per_year r n ≠ 0 →
      calculate_lcoe lcc e_total_per_year r n
        = .value (lcc / discounted_energy_sum e_total_per_year r n))
    ∧ (discounted_energy_sum e_total_per_year r n = 0 →
      calculate_lcoe lcc e_total_per_year r n = .posInf)
    ∧ (e_total_per_year = 0 →
      calculate_lcoe lcc e_total_per_year r n = .posInf) := by
  have hsum : (List.range' 1 n).foldl
      (fun acc y => acc + e_total_per_year / (1 + r) ^ y) 0
      = discounted_energy_sum e_total_per_year r n := by
    rw [foldl_add_eq_sum (fun y => e_total_per_year / (1 + r) ^ y)]
    simp [discounted_energy_sum]
  refine ⟨fun h => ?_, fun h => ?_, fun h => ?_⟩
  · unfold calculate_lcoe
    rw [hsum, if_neg h]
  · unfold calculate_lcoe
    rw [hsum, if_pos h]
  · unfold calculate_lcoe
    rw [hsum, if_pos ?_]
    simp [discounted_energy_sum, h]

/-- Witness for `lcoe_spec` at `e_total_per_year = 0`, `r = 5/100`,
`n = 3`. -/
theorem lcoe_spec_witness :
    ((5:ℚ)/100 ≠ -1) ∧ 1 ≤ 3 ∧ (0:ℚ) = 0
    ∧ calculate_lcoe 500 0 (5/100) 3 = .posInf :=
  ⟨by norm_num, by norm_num, rfl,
    (lcoe_spec 500 0 (5/100) 3 (by norm_num) (by norm_num)).2.2 rfl⟩

/-- Claim C7: the handler performs at most one battery operation,
selected by comparing total generation to load: a single charge with
the surplus when generation exceeds load, a single discharge with the
deficit when load exceeds generation, and neither (state of charge
unchanged) when they are equal. -/
theorem battery_dispatch_spec (b : Battery) (gen load : ℚ) :
    (gen > load → (simulate_battery b gen load).op = .charged (gen - load))
    ∧ (gen < load → (simulate_battery b gen load).op = .discharged (load - gen))
    ∧ (gen = load →
        (simulate_battery b gen load).op = BatteryOp.noOp
        ∧ (simulate_battery b gen load).battery.soc = b.soc) := by
  simp only [simulate_battery]
  refine ⟨fun h => ?_, fun h => ?_, fun h => ?_⟩
  · rw [if_pos h]
  · rw [if_neg (not_lt.mpr h.le), if_pos h]
  · subst h
    rw [if_neg (lt_irrefl gen), if_neg (lt_irrefl gen)]
    exact ⟨rfl, rfl⟩

/-- Witness for `battery_dispatch_spec`: generation 5, load 3 charges
the surplus 2; generation 3, load 5 discharges the deficit 2. -/
theorem battery_dispatch_spec_witness :
    ((5:ℚ) > 3)
    ∧ (simulate_battery (Battery.mk 10 (1/2) (9/10) (9/10)) 5 3).op = .charged (5 - 3)
    ∧ ((3:ℚ) < 5)
    ∧ (simulate_battery (Battery.mk 10 (1/2) (9/10) (9/10)) 3 5).op
        = .discharged (5 - 3) :=
  ⟨by norm_num,
    (battery_dispatch_spec (Battery.mk 10 (1/2) (9/10) (9/10)) 5 3).1 (by norm_num),
    by norm_num,
    (battery_dispatch_spec (Battery.mk 10 (1/2) (9/10) (9/10)) 3 5).2.1 (by norm_num)⟩

/-- Claim C8 counterexample: for the concrete request carrying no
scenario tag, the response still contains a
`scenario_modeling_results` entry — the handler puts the key in the
response dict unconditionally (app.py line 196), with an empty object
as its value. -/
theorem scenario_entry_counterexample :
    request_no_scenario.scenario = Option.none
    ∧ "scenario_modeling_results" ∈ nzeb_response_keys request_no_scenario
    ∧ (nzeb_model request_no_scenario).scenario_modeling_results = [] := by
  refine ⟨rfl, ?_, rfl⟩
  simp [nzeb_response_keys]

/-- Claim C8 amended: every response contains a
`scenario_modeling_results` entry; its value is empty when the input
carries no scenario tag (or any tag other than `"grid_outage"`), and
non-empty exactly when the tag is `"grid_outage"`. -/
theorem scenario_entry_amended (req : NzebRequest) :
    "scenario_modeling_results" ∈ nzeb_response_keys req
    ∧ ((nzeb_model req).scenario_modeling_results ≠ []
        ↔ req.scenario = some "grid_outage") := by
  constructor
  · simp [nzeb_response_keys]
  · have hres : (nzeb_model req).scenario_modeling_results = scenario_results_of req := rfl
    rw [hres]
    unfold scenario_results_of
    by_cases h : req.scenario = some "grid_outage"
    · simp [h]
    · simp [h]

/-- Claim C9: when the `"grid_outage"` scenario is requested, the
scenario result reports the energy balance recomputed with grid energy
forced to 0 (total generated minus load) and an uptime percentage of
`min 100 (generated / load * 100)` when load is positive, else 100. -/
theorem grid_outage_scenario_spec (req : NzebRequest)
    (h : req.scenario = some "grid_outage") :
    (nzeb_model req).scenario_modeling_results
      = [("grid_outage",
          { excess_energy_during_outage_kWh :=
              req_total_generated req - req.load_demand,
            system_uptime_percentage :=
              if req.load_demand > 0
              then min 100 (req_total_generated req / req.load_demand * 100)
              else 100 })] := by
  have hres : (nzeb_model req).scenario_modeling_results = scenario_results_of req := rfl
  rw [hres]
  simp only [scenario_results_of]
  rw [if_pos h]
  have h1 : calculate_energy_balance (req_total_generated req) 0 req.load_demand
      = req_total_generated req - req.load_demand := by
    unfold calculate_energy_balance
    ring
  have h2 : min (if req.load_demand > 0
        then req_total_generated req / req.load_demand * 100 else 100) 100
      = (if req.load_demand > 0
        then min 100 (req_total_generated req / req.load_demand * 100) else 100) := by
    by_cases hl : req.load_demand > 0
    · rw [if_pos hl, if_pos hl, min_comm]
    · rw [if_neg hl, if_neg hl, min_self]
  rw [h1, h2]

/-- Witness for `grid_outage_scenario_spec` at the concrete
grid-outage request. -/
theorem grid_outage_scenario_spec_witness :
    request_grid_outage.scenario = some "grid_outage"
    ∧ (nzeb_model request_grid_outage).scenario_modeling_results
      = [("grid_outage",
          { excess_energy_during_outage_kWh :=
              req_total_generated request_grid_outage - request_grid_outage.load_demand,
            system_uptime_percentage :=
              if request_grid_outage.load_demand > 0
              then min 100 (req_total_generated request_grid_outage
                / request_grid_outage.load_demand * 100)
              else 100 })] :=
  ⟨rfl, grid_outage_scenario_spec request_grid_outage rfl⟩

/-- Claim C10: the reported `excess_or_curtailed_energy_kWh` always
equals total generated plus grid minus load, and is unaffected by the
battery inputs (and hence by the charge or discharge performed in the
same request). -/
theorem excess_energy_frame (req : NzebRequest) :
    (nzeb_model req).excess_or_curtailed_energy_kWh
      = req_total_generated req + req.grid_energy - req.load_demand
    ∧ ∀ bi : BatteryInputs,
        (nzeb_model { req with battery_inputs := bi }).excess_or_curtailed_energy_kWh
          = (nzeb_model req).excess_or_curtailed_energy_kWh := by
  exact ⟨rfl, fun bi => rfl⟩
